import Mathlib

/-
Verification of the Pomodoro timer state machine (src/pomodoro_timer.py).

The engine state and every operation below are shallow embeddings of the
Python class PomodoroTimer (and of the engine-visible effects of the GUI
handlers start_timer, pause_timer, stop_timer). Times and counters are
nonnegative machine integers in the source and are modelled as Nat.
-/

namespace Pomodoro

/-- Embedding of the Python enum State (FOCUS, SHORT_BREAK, LONG_BREAK). -/
inductive State where
  | FOCUS
  | SHORT_BREAK
  | LONG_BREAK
deriving DecidableEq, Repr

/-- Embedding of PomodoroTimer.DURATIONS, the per-state duration table
(25, 5 and 15 minutes, written as in the source). -/
def DURATIONS : State → Nat
  | State.FOCUS => 25 * 60
  | State.SHORT_BREAK => 5 * 60
  | State.LONG_BREAK => 15 * 60

/-- Embedding of the mutable fields of a PomodoroTimer instance
(current_state, time_remaining, is_running, focus_count); the timer_id
field is a GUI scheduling handle and carries no engine state. -/
structure PomodoroTimer where
  current_state : State
  time_remaining : Nat
  is_running : Bool
  focus_count : Nat
deriving DecidableEq, Repr

/-- Embedding of PomodoroTimer.__init__: state FOCUS, full focus duration,
not running, zero completed focus sessions. -/
def PomodoroTimer.init : PomodoroTimer :=
  { current_state := State.FOCUS
    time_remaining := DURATIONS State.FOCUS
    is_running := false
    focus_count := 0 }

/-- Embedding of PomodoroTimer.get_next_state: from FOCUS, LONG_BREAK when
focus_count is at least 3, else SHORT_BREAK; from either break, FOCUS. -/
def get_next_state (t : PomodoroTimer) : State :=
  if t.current_state = State.FOCUS then
    if t.focus_count ≥ 3 then State.LONG_BREAK else State.SHORT_BREAK
  else
    State.FOCUS

/-- Embedding of PomodoroTimer.transition_to_next_state. As in the source,
when the current state is FOCUS the counter is incremented (and wrapped to 0
on reaching 4) BEFORE get_next_state is consulted; the new state's full
duration is then installed. -/
def transition_to_next_state (t : PomodoroTimer) : PomodoroTimer :=
  let t1 :=
    if t.current_state = State.FOCUS then
      let c := t.focus_count + 1
      { t with focus_count := if c ≥ 4 then 0 else c }
    else t
  let ns := get_next_state t1
  { t1 with current_state := ns, time_remaining := DURATIONS ns }

/-- Embedding of PomodoroTimer.reset_to_focus: in FOCUS only the time is
reset; in a break the state becomes FOCUS with the full focus duration. -/
def reset_to_focus (t : PomodoroTimer) : PomodoroTimer :=
  if t.current_state = State.FOCUS then
    { t with time_remaining := DURATIONS State.FOCUS }
  else
    { t with current_state := State.FOCUS
             time_remaining := DURATIONS State.FOCUS }

/-- Embedding of PomodoroTimer.tick: returns the updated timer together with
the boolean the method returns (True exactly when the decrement reached 0). -/
def tick (t : PomodoroTimer) : PomodoroTimer × Bool :=
  if t.time_remaining > 0 then
    let t1 := { t with time_remaining := t.time_remaining - 1 }
    (t1, t1.time_remaining == 0)
  else
    (t, false)

/-- Zero-padded two-digit rendering of a number below 100, as the format
specifier 02d produces (numbers of three or more digits print in full,
matching 02d as well). -/
def pad2 (n : Nat) : String :=
  if n < 10 then "0" ++ toString n else toString n

/-- Embedding of PomodoroTimer.format_time: MM:SS with floor division by 60
and remainder, both zero-padded to two digits. -/
def format_time (t : PomodoroTimer) : String :=
  pad2 (t.time_remaining / 60) ++ ":" ++ pad2 (t.time_remaining % 60)

/-- Embedding of the fill-level computation in
PomodoroTimer.get_energy_drink_display: int(time_remaining / total_time * 10),
written with exact natural-number floor division. On every state with
time_remaining at most the current duration (all reachable states) the
source's double-precision evaluation agrees with this exact value: the two
quantities can only differ when a rounding crosses an integer boundary, the
gaps between consecutive exact values of 10*r/d are at least 1/150 while the
rounding errors are below 1e-15, and at the integer values k/10 themselves
the double product round(k/10) * 10 rounds back to exactly k for every
k from 0 to 10. -/
def fill_level (t : PomodoroTimer) : Nat :=
  t.time_remaining * 10 / DURATIONS t.current_state

/-- Embedding of the 10-iteration liquid loop in get_energy_drink_display:
band i (top to bottom) is filled exactly when i is not below 10 - fill_level,
i.e. the loop draws the empty part first and the liquid below it. -/
def can_rows (t : PomodoroTimer) : List Bool :=
  (List.range 10).map (fun i => if i < 10 - fill_level t then false else true)

/-- Embedding of the text of one liquid row of the can. -/
def liquid_row (filled : Bool) : String :=
  if filled then " | ▓▓▓▓▓▓▓ |  " else " |           |  "

/-- Embedding of get_energy_drink_display as the list of lines the source
joins with a newline: fixed top art, the 10 liquid rows, fixed bottom. -/
def get_energy_drink_display (t : PomodoroTimer) : List String :=
  ["  ___________  ", " |  _____  |  ", " | |_____| |  ", " |           |  "]
    ++ (can_rows t).map liquid_row
    ++ [" |___________|  "]

/-- Engine-visible effect of PomodoroGUI.stop_timer: clears is_running and
restores the full duration of the current state; state and counter keep. -/
def stop_timer (t : PomodoroTimer) : PomodoroTimer :=
  { t with is_running := false
           time_remaining := DURATIONS t.current_state }

/-- Engine-visible effect of PomodoroGUI.start_timer: sets is_running when
it was clear, otherwise does nothing. -/
def start_timer (t : PomodoroTimer) : PomodoroTimer :=
  if t.is_running then t else { t with is_running := true }

/-- Engine-visible effect of PomodoroGUI.pause_timer: clears is_running. -/
def pause_timer (t : PomodoroTimer) : PomodoroTimer :=
  { t with is_running := false }

/-- Repeated application of tick, discarding the returned booleans; used to
model running a phase down to zero before a transition. -/
def tick_run : Nat → PomodoroTimer → PomodoroTimer
  | 0, t => t
  | n + 1, t => tick_run n (tick t).1

/-- One expiry step as the presentation layer drives it: tick the phase all
the way down to zero, then call transition_to_next_state. -/
def expire_transition (t : PomodoroTimer) : PomodoroTimer :=
  transition_to_next_state (tick_run t.time_remaining t)

/-- The trajectory of repeated expire-and-transition steps from the initial
timer. -/
def run_cycle : Nat → PomodoroTimer
  | 0 => PomodoroTimer.init
  | n + 1 => expire_transition (run_cycle n)

/-- States reachable from the initial timer by the engine operations and the
GUI handlers that mutate engine fields. -/
inductive Reachable : PomodoroTimer → Prop where
  | base : Reachable PomodoroTimer.init
  | step_tick {t : PomodoroTimer} : Reachable t → Reachable (tick t).1
  | step_transition {t : PomodoroTimer} :
      Reachable t → Reachable (transition_to_next_state t)
  | step_reset {t : PomodoroTimer} : Reachable t → Reachable (reset_to_focus t)
  | step_stop {t : PomodoroTimer} : Reachable t → Reachable (stop_timer t)
  | step_start {t : PomodoroTimer} : Reachable t → Reachable (start_timer t)
  | step_pause {t : PomodoroTimer} : Reachable t → Reachable (pause_timer t)

/-- The transition-only trajectory: repeated transition_to_next_state from
the initial timer, used as a computation-friendly description of run_cycle. -/
def run_transitions : Nat → PomodoroTimer
  | 0 => PomodoroTimer.init
  | n + 1 => transition_to_next_state (run_transitions n)

/-- A tick changes neither the state, the running flag nor the counter. -/
lemma tick_fst_fields (t : PomodoroTimer) :
    (tick t).1.current_state = t.current_state ∧
      (tick t).1.is_running = t.is_running ∧
      (tick t).1.focus_count = t.focus_count := by
  unfold tick
  split <;> exact ⟨rfl, rfl, rfl⟩

/-- Iterated ticking changes neither the state, the running flag nor the
counter. -/
lemma tick_run_fields : ∀ (n : Nat) (t : PomodoroTimer),
    (tick_run n t).current_state = t.current_state ∧
      (tick_run n t).is_running = t.is_running ∧
      (tick_run n t).focus_count = t.focus_count
  | 0, _ => ⟨rfl, rfl, rfl⟩
  | n + 1, t => by
    obtain ⟨h1, h2, h3⟩ := tick_run_fields n (tick t).1
    obtain ⟨g1, g2, g3⟩ := tick_fst_fields t
    exact ⟨h1.trans g1, h2.trans g2, h3.trans g3⟩

/-- transition_to_next_state never reads time_remaining. -/
lemma transition_time_irrelevant (ph : State) (r1 r2 : Nat) (run : Bool)
    (c : Nat) :
    transition_to_next_state ⟨ph, r1, run, c⟩ =
      transition_to_next_state ⟨ph, r2, run, c⟩ := by
  cases ph <;> rfl

/-- Running the phase down to zero before transitioning yields the same
timer as transitioning directly: ticks touch only time_remaining, and the
transition overwrites it with the new full duration. -/
lemma expire_transition_eq (t : PomodoroTimer) :
    expire_transition t = transition_to_next_state t := by
  obtain ⟨ph, r, run, c⟩ := t
  obtain ⟨h1, h2, h3⟩ := tick_run_fields r ⟨ph, r, run, c⟩
  calc expire_transition ⟨ph, r, run, c⟩
      = transition_to_next_state
          ⟨(tick_run r ⟨ph, r, run, c⟩).current_state,
           (tick_run r ⟨ph, r, run, c⟩).time_remaining,
           (tick_run r ⟨ph, r, run, c⟩).is_running,
           (tick_run r ⟨ph, r, run, c⟩).focus_count⟩ := rfl
    _ = transition_to_next_state
          ⟨ph, (tick_run r ⟨ph, r, run, c⟩).time_remaining, run, c⟩ := by
        rw [h1, h2, h3]
    _ = transition_to_next_state ⟨ph, r, run, c⟩ :=
        transition_time_irrelevant ph _ r run c

/-- The expire-and-transition trajectory coincides with the transition-only
trajectory. -/
lemma run_cycle_eq_run_transitions : ∀ n, run_cycle n = run_transitions n
  | 0 => rfl
  | n + 1 => by
    show expire_transition (run_cycle n) = _
    rw [run_cycle_eq_run_transitions n, expire_transition_eq]
    rfl

end Pomodoro

namespace Pomodoro

/-- Explicit form of the state after a tick. -/
lemma tick_fst_eq (t : PomodoroTimer) :
    (tick t).1 =
      if 0 < t.time_remaining then
        { t with time_remaining := t.time_remaining - 1 }
      else t := by
  unfold tick
  split <;> rfl

/-- Explicit case analysis of transition_to_next_state on a destructured
timer: from FOCUS the counter is incremented first, so the wrap to 0 fires
when the pre-increment counter was 3 (landing in SHORT_BREAK) and LONG_BREAK
is entered exactly when the pre-increment counter was 2. -/
lemma transition_eq (ph : State) (r : Nat) (run : Bool) (c : Nat) :
    transition_to_next_state ⟨ph, r, run, c⟩ =
      if ph = State.FOCUS then
        if 4 ≤ c + 1 then
          ⟨State.SHORT_BREAK, DURATIONS State.SHORT_BREAK, run, 0⟩
        else if 3 ≤ c + 1 then
          ⟨State.LONG_BREAK, DURATIONS State.LONG_BREAK, run, c + 1⟩
        else
          ⟨State.SHORT_BREAK, DURATIONS State.SHORT_BREAK, run, c + 1⟩
      else ⟨State.FOCUS, DURATIONS State.FOCUS, run, c⟩ := by
  cases ph with
  | FOCUS =>
    by_cases h4 : 4 ≤ c + 1
    · simp [transition_to_next_state, get_next_state, h4]
    · by_cases h3 : 3 ≤ c + 1
      · simp [transition_to_next_state, get_next_state, h4, h3]
      · simp [transition_to_next_state, get_next_state, h4, h3]
  | SHORT_BREAK => simp [transition_to_next_state, get_next_state]
  | LONG_BREAK => simp [transition_to_next_state, get_next_state]

/-- Explicit form of reset_to_focus: both branches of the source produce the
same timer, FOCUS with its full duration and untouched counter and flag. -/
lemma reset_to_focus_eq (ph : State) (r : Nat) (run : Bool) (c : Nat) :
    reset_to_focus ⟨ph, r, run, c⟩ =
      ⟨State.FOCUS, DURATIONS State.FOCUS, run, c⟩ := by
  cases ph <;> rfl

/-- Inductive invariant of the reachable states: the countdown never exceeds
the current duration, the counter stays in 0..3, and the counter is exactly 3
whenever the state is LONG_BREAK. -/
lemma reachable_inv {t : PomodoroTimer} (h : Reachable t) :
    t.time_remaining ≤ DURATIONS t.current_state ∧
      t.focus_count ≤ 3 ∧
      (t.current_state = State.LONG_BREAK → t.focus_count = 3) := by
  induction h with
  | base => decide
  | step_tick h ih =>
    rename_i t
    obtain ⟨h1, h2, h3⟩ := ih
    rw [tick_fst_eq]
    split
    · refine ⟨?_, h2, h3⟩
      show t.time_remaining - 1 ≤ DURATIONS t.current_state
      omega
    · exact ⟨h1, h2, h3⟩
  | step_transition h ih =>
    rename_i t
    obtain ⟨h1, h2, h3⟩ := ih
    obtain ⟨ph, r, run, c⟩ := t
    have hc : c ≤ 3 := h2
    rw [transition_eq]
    by_cases hf : ph = State.FOCUS
    · rw [if_pos hf]
      by_cases h4 : 4 ≤ c + 1
      · rw [if_pos h4]
        exact ⟨le_refl _, Nat.zero_le 3, by intro hx; cases hx⟩
      · rw [if_neg h4]
        by_cases hl : 3 ≤ c + 1
        · rw [if_pos hl]
          exact ⟨le_refl _, by show c + 1 ≤ 3; omega,
            fun _ => by show c + 1 = 3; omega⟩
        · rw [if_neg hl]
          exact ⟨le_refl _, by show c + 1 ≤ 3; omega, by intro hx; cases hx⟩
    · rw [if_neg hf]
      exact ⟨le_refl _, hc, by intro hx; cases hx⟩
  | step_reset h ih =>
    rename_i t
    obtain ⟨h1, h2, h3⟩ := ih
    obtain ⟨ph, r, run, c⟩ := t
    have hc : c ≤ 3 := h2
    rw [reset_to_focus_eq]
    exact ⟨le_refl _, hc, by intro hx; cases hx⟩
  | step_stop h ih =>
    obtain ⟨h1, h2, h3⟩ := ih
    exact ⟨le_refl _, h2, h3⟩
  | step_start h ih =>
    obtain ⟨h1, h2, h3⟩ := ih
    unfold start_timer
    split
    · exact ⟨h1, h2, h3⟩
    · exact ⟨h1, h2, h3⟩
  | step_pause h ih =>
    exact ih

end Pomodoro

namespace Pomodoro

/-- Durations are positive. -/
lemma DURATIONS_pos (p : State) : 0 < DURATIONS p := by
  cases p <;> decide

/-- Durations are bounded by the focus duration. -/
lemma DURATIONS_le_1500 (p : State) : DURATIONS p ≤ 1500 := by
  cases p <;> decide

/-- C1: the claim predicts the phase trajectory F, SB, F, SB, F, SB, F, LB
with a long break exactly every 4th focus completion. The code actually
enters LONG_BREAK at expiry 5 (after the 3rd focus completion) and
SHORT_BREAK at expiry 7 (after the 4th), with period 8; the claimed counter
trajectory 1, 2, 3, 0 after successive focus expiries does hold. -/
theorem c1_cycle_code_behavior :
    (run_cycle 1).current_state = State.SHORT_BREAK ∧
      (run_cycle 2).current_state = State.FOCUS ∧
      (run_cycle 3).current_state = State.SHORT_BREAK ∧
      (run_cycle 4).current_state = State.FOCUS ∧
      (run_cycle 5).current_state = State.LONG_BREAK ∧
      (run_cycle 6).current_state = State.FOCUS ∧
      (run_cycle 7).current_state = State.SHORT_BREAK ∧
      run_cycle 8 = PomodoroTimer.init ∧
      (run_cycle 1).focus_count = 1 ∧
      (run_cycle 3).focus_count = 2 ∧
      (run_cycle 5).focus_count = 3 ∧
      (run_cycle 7).focus_count = 0 := by
  simp only [run_cycle_eq_run_transitions]
  decide

/-- C2: the claim predicts that from FOCUS with counter 3 the transition
enters LONG_BREAK with the counter wrapped to 0, and from counter 2 it
enters SHORT_BREAK. The code consults get_next_state after the increment
and wrap, so counter 3 yields SHORT_BREAK with counter 0 and counter 2
yields LONG_BREAK with counter 3. -/
theorem c2_transition_code_behavior :
    transition_to_next_state ⟨State.FOCUS, 0, false, 3⟩ =
        ⟨State.SHORT_BREAK, 300, false, 0⟩ ∧
      transition_to_next_state ⟨State.FOCUS, 0, false, 2⟩ =
        ⟨State.LONG_BREAK, 900, false, 3⟩ := by
  decide

/-- C3: with positive remaining time a tick decrements it by one, returns
true exactly when it reached 0 and changes nothing else; at zero it returns
false and leaves the whole timer unchanged. -/
theorem c3_tick (t : PomodoroTimer) :
    (0 < t.time_remaining →
      tick t = ({ t with time_remaining := t.time_remaining - 1 },
        t.time_remaining - 1 == 0)) ∧
    (t.time_remaining = 0 → tick t = (t, false)) := by
  constructor
  · intro h
    unfold tick
    rw [if_pos h]
  · intro h
    unfold tick
    rw [if_neg (by omega)]

/-- Witness for C3 at the initial timer. -/
theorem c3_tick_witness :
    tick PomodoroTimer.init =
      ({ PomodoroTimer.init with time_remaining := 1499 }, false) :=
  ((c3_tick PomodoroTimer.init).1 (by decide)).trans (by decide)

/-- C4: get_next_state returns LONG_BREAK from FOCUS with counter at least
3, SHORT_BREAK from FOCUS with counter below 3, and FOCUS from either
break; being a plain function of the timer it mutates nothing. -/
theorem c4_get_next_state (t : PomodoroTimer) :
    (t.current_state = State.FOCUS → 3 ≤ t.focus_count →
      get_next_state t = State.LONG_BREAK) ∧
    (t.current_state = State.FOCUS → t.focus_count < 3 →
      get_next_state t = State.SHORT_BREAK) ∧
    ((t.current_state = State.SHORT_BREAK ∨
        t.current_state = State.LONG_BREAK) →
      get_next_state t = State.FOCUS) := by
  refine ⟨fun hf hc => ?_, fun hf hc => ?_, fun hb => ?_⟩
  · unfold get_next_state
    rw [if_pos hf, if_pos hc]
  · unfold get_next_state
    rw [if_pos hf, if_neg (by omega)]
  · have hnf : t.current_state ≠ State.FOCUS := by
      rcases hb with hb | hb <;> rw [hb] <;> intro hx <;> cases hx
    unfold get_next_state
    rw [if_neg hnf]

/-- Witness for C4 at a FOCUS timer with counter 3. -/
theorem c4_get_next_state_witness :
    get_next_state ⟨State.FOCUS, 0, false, 3⟩ = State.LONG_BREAK :=
  (c4_get_next_state ⟨State.FOCUS, 0, false, 3⟩).1 rfl (by decide)

/-- C5: in FOCUS, reset_to_focus only restores the full focus time; in a
break it additionally moves the state to FOCUS, and in both cases the
counter (and the running flag) is untouched. -/
theorem c5_reset_to_focus (t : PomodoroTimer) :
    (t.current_state = State.FOCUS →
      reset_to_focus t = { t with time_remaining := 1500 }) ∧
    ((t.current_state = State.SHORT_BREAK ∨
        t.current_state = State.LONG_BREAK) →
      reset_to_focus t =
        ⟨State.FOCUS, 1500, t.is_running, t.focus_count⟩) := by
  obtain ⟨ph, r, run, c⟩ := t
  constructor
  · intro hf
    have hf1 : ph = State.FOCUS := hf
    subst hf1
    rfl
  · intro hb
    rcases hb with hb | hb
    · have hb1 : ph = State.SHORT_BREAK := hb
      subst hb1
      rfl
    · have hb1 : ph = State.LONG_BREAK := hb
      subst hb1
      rfl

/-- Witness for C5 at the short-break timer of the spec's example. -/
theorem c5_reset_to_focus_witness :
    reset_to_focus ⟨State.SHORT_BREAK, 100, false, 2⟩ =
      ⟨State.FOCUS, 1500, false, 2⟩ :=
  (c5_reset_to_focus ⟨State.SHORT_BREAK, 100, false, 2⟩).2 (Or.inl rfl)

/-- C6: stop_timer clears the running flag, restores the full duration of
the current state and leaves state and counter unchanged; in particular a
LONG_BREAK timer at 50 seconds goes back to 900 seconds, stopped. -/
theorem c6_stop_timer :
    (∀ t : PomodoroTimer,
      stop_timer t =
        ⟨t.current_state, DURATIONS t.current_state, false, t.focus_count⟩) ∧
    stop_timer ⟨State.LONG_BREAK, 50, true, 3⟩ =
      ⟨State.LONG_BREAK, 900, false, 3⟩ :=
  ⟨fun _ => rfl, by decide⟩

end Pomodoro

namespace Pomodoro

/-- The fill level is at most 10 as soon as the countdown is within the
current duration. -/
lemma fill_level_le {t : PomodoroTimer}
    (h : t.time_remaining ≤ DURATIONS t.current_state) :
    fill_level t ≤ 10 := by
  obtain ⟨ph, r, run, c⟩ := t
  have hr : r ≤ DURATIONS ph := h
  show r * 10 / DURATIONS ph ≤ 10
  cases ph <;> simp only [DURATIONS] at hr ⊢ <;> omega

/-- Numbers below 100 render as exactly two characters under pad2. -/
lemma pad2_length {n : Nat} (h : n < 100) : (pad2 n).length = 2 := by
  interval_cases n <;> rfl

/-- On timers whose countdown is within the current duration, format_time
always yields the five-character MM:SS form. -/
lemma format_time_length (t : PomodoroTimer)
    (h : t.time_remaining ≤ DURATIONS t.current_state) :
    (format_time t).length = 5 := by
  have hd : DURATIONS t.current_state ≤ 1500 := DURATIONS_le_1500 _
  have hm : t.time_remaining / 60 < 100 := by omega
  have hs : t.time_remaining % 60 < 100 := by omega
  simp [format_time, String.length_append, pad2_length hm, pad2_length hs]
  rfl

/-- C7: every state reachable from the initial timer by ticks, transitions,
resets, stops, starts and pauses keeps the countdown within the (fixed)
duration of the current state and the counter within 0..3; for a Nat-valued
countdown the lower bound 0 is automatic. -/
theorem c7_reachable_bounds (t : PomodoroTimer) (h : Reachable t) :
    t.time_remaining ≤ DURATIONS t.current_state ∧
      t.focus_count ≤ 3 ∧
      DURATIONS State.FOCUS = 1500 ∧
      DURATIONS State.SHORT_BREAK = 300 ∧
      DURATIONS State.LONG_BREAK = 900 :=
  ⟨(reachable_inv h).1, (reachable_inv h).2.1, rfl, rfl, rfl⟩

/-- Witness for C7 at the initial timer. -/
theorem c7_reachable_bounds_witness :
    PomodoroTimer.init.time_remaining ≤
        DURATIONS PomodoroTimer.init.current_state ∧
      PomodoroTimer.init.focus_count ≤ 3 ∧
      DURATIONS State.FOCUS = 1500 ∧
      DURATIONS State.SHORT_BREAK = 300 ∧
      DURATIONS State.LONG_BREAK = 900 :=
  c7_reachable_bounds PomodoroTimer.init Reachable.base

/-- C8: in every reachable state, being in LONG_BREAK forces the completed
focus counter to equal 3; the counter is wrapped to 0 only by the transition
ending the following FOCUS phase, so the progress indicator shows three of
its four slots filled for the whole long break. -/
theorem c8_longbreak_count (t : PomodoroTimer) (h : Reachable t) :
    t.current_state = State.LONG_BREAK → t.focus_count = 3 :=
  (reachable_inv h).2.2

/-- Witness for C8 at the reachable LONG_BREAK state five transitions from
the initial timer. -/
theorem c8_longbreak_count_witness :
    (transition_to_next_state (transition_to_next_state
      (transition_to_next_state (transition_to_next_state
        (transition_to_next_state PomodoroTimer.init))))).focus_count = 3 :=
  c8_longbreak_count _
    (Reachable.step_transition (Reachable.step_transition
      (Reachable.step_transition (Reachable.step_transition
        (Reachable.step_transition Reachable.base)))))
    (by decide)

/-- C9: on any state whose countdown is within the current duration, the
energy-drink fill level is the floor of the remaining fraction scaled to 10;
it is 10 exactly at the full duration, 0 exactly below one tenth of the
duration, and the 10 liquid bands consist of the empty ones on top followed
by exactly fill-level filled ones at the bottom. -/
theorem c9_fill_display (t : PomodoroTimer)
    (h : t.time_remaining ≤ DURATIONS t.current_state) :
    fill_level t = t.time_remaining * 10 / DURATIONS t.current_state ∧
      (fill_level t = 10 ↔ t.time_remaining = DURATIONS t.current_state) ∧
      (fill_level t = 0 ↔ t.time_remaining * 10 < DURATIONS t.current_state) ∧
      can_rows t =
        List.replicate (10 - fill_level t) false ++
          List.replicate (fill_level t) true := by
  have hfl : fill_level t ≤ 10 := fill_level_le h
  refine ⟨rfl, ?_, ?_, ?_⟩
  · obtain ⟨ph, r, run, c⟩ := t
    have hr : r ≤ DURATIONS ph := h
    show r * 10 / DURATIONS ph = 10 ↔ r = DURATIONS ph
    cases ph <;> simp only [DURATIONS] at hr ⊢ <;> omega
  · obtain ⟨ph, r, run, c⟩ := t
    have hr : r ≤ DURATIONS ph := h
    show r * 10 / DURATIONS ph = 0 ↔ r * 10 < DURATIONS ph
    cases ph <;> simp only [DURATIONS] at hr ⊢ <;> omega
  · simp only [can_rows]
    revert hfl
    generalize fill_level t = fl
    intro hfl
    interval_cases fl <;> decide

/-- Witness for C9 at the initial timer, which is at its full duration. -/
theorem c9_fill_display_witness : fill_level PomodoroTimer.init = 10 :=
  ((c9_fill_display PomodoroTimer.init (le_refl _)).2.1).mpr rfl

/-- C10: on every reachable state the engine operations are total and
cannot fail: every phase duration is a positive constant, so the fill-ratio
division has a nonzero divisor and the fill level is a defined value at most
10, the formatter produces a well-formed five-character MM:SS string, and
get_next_state lands in the three-value phase enumeration. -/
theorem c10_totality (t : PomodoroTimer) (h : Reachable t) :
    0 < DURATIONS State.FOCUS ∧
      0 < DURATIONS State.SHORT_BREAK ∧
      0 < DURATIONS State.LONG_BREAK ∧
      fill_level t ≤ 10 ∧
      (format_time t).length = 5 ∧
      (get_next_state t = State.FOCUS ∨
        get_next_state t = State.SHORT_BREAK ∨
        get_next_state t = State.LONG_BREAK) := by
  have hinv := (reachable_inv h).1
  refine ⟨DURATIONS_pos _, DURATIONS_pos _, DURATIONS_pos _,
    fill_level_le hinv, format_time_length t hinv, ?_⟩
  unfold get_next_state
  split
  · split
    · exact Or.inr (Or.inr rfl)
    · exact Or.inr (Or.inl rfl)
  · exact Or.inl rfl

/-- Witness for C10 at the initial timer. -/
theorem c10_totality_witness :
    0 < DURATIONS State.FOCUS ∧
      0 < DURATIONS State.SHORT_BREAK ∧
      0 < DURATIONS State.LONG_BREAK ∧
      fill_level PomodoroTimer.init ≤ 10 ∧
      (format_time PomodoroTimer.init).length = 5 ∧
      (get_next_state PomodoroTimer.init = State.FOCUS ∨
        get_next_state PomodoroTimer.init = State.SHORT_BREAK ∨
        get_next_state PomodoroTimer.init = State.LONG_BREAK) :=
  c10_totality PomodoroTimer.init Reachable.base

end Pomodoro
